import Mathlib

/-!
Verification of the podcast speaker-separation tool
(`podcast_audio_segmentation.py`) against its specification.

Modelling conventions:

* Audio is modelled at millisecond granularity: an `Audio` value is a list
  of samples, one per millisecond (pydub's `AudioSegment` is addressed and
  measured in milliseconds, and `len(audio)` is its length in ms).
  `AudioSegment.silent(duration=d)` becomes `silent d` (all-zero samples;
  for a negative Python duration pydub produces an empty segment, matched
  here by truncated `Nat` subtraction producing `silent 0 = []`).
  Python slicing `audio[a:b]` becomes `slice audio a b`, with Python's
  clamping semantics (`drop` then `take`).
* A `Segment` stores the integer millisecond times the code computes with
  `int(row['start'] * 1000)` and `int(row['stop'] * 1000)`; the label is
  the raw string from the `labels` column.
* The per-instance Python state (`self.audio_file_path`'s content,
  `self.segments_df`, the lazily loaded `self.audio`) becomes the explicit
  `SeparatorState`; a raised Python exception becomes an `Except.error`,
  so an error result carries no successor state (the caller's state is
  untouched, as in Python where the raise happens before any mutation).
* Calls to the external `ffmpeg` collaborators (per-segment slicing and
  concatenation in `extract_speaker_segments`, the `amerge` filter in
  `create_stereo_mix`) are modelled by explicit success oracles passed as
  arguments; the code only observes whether `subprocess.run` raised.
-/

/-- One millisecond of audio is one sample; a recording or track is the
list of its samples. -/
abbrev Audio := List Int

/-- `AudioSegment.silent(duration=d, frame_rate=...)`: `d` milliseconds of
zero samples. -/
def silent (duration_ms : Nat) : Audio :=
  List.replicate duration_ms 0

/-- Python slice `audio[start_ms:stop_ms]` on a pydub `AudioSegment`:
clamped to the available range, empty when `stop_ms ≤ start_ms`. -/
def audioSlice (audio : Audio) (start_ms stop_ms : Nat) : Audio :=
  (audio.drop start_ms).take (stop_ms - start_ms)

/-- A row of `segments_df`: label plus start/stop times converted to
integer milliseconds (`int(row['start'] * 1000)`, `int(row['stop'] * 1000)`). -/
structure Segment where
  label : String
  start_ms : Nat
  stop_ms : Nat
deriving DecidableEq

/-- The mutable state of a `PodcastSpeakerSeparator` instance:
the content of the input file, the segmentation table (`None` until
`segment_audio()` has run), and the lazily loaded `self.audio`. -/
structure SeparatorState where
  audio_file : Audio
  segments_df : Option (List Segment)
  audio : Option Audio
deriving DecidableEq

/-- The exceptions the modelled methods can raise. -/
inductive SepError where
  | valueError (msg : String)
deriving DecidableEq

/-- The body of the `for idx, row in self.segments_df.iterrows()` loop of
`create_synchronized_tracks`: the accumulator is
`(male_audio, female_audio, current_time_ms)`.  A gap before the segment
is filled with silence on both tracks; then the segment's audio goes to
the matching track and silence of the (unclamped) segment duration to the
other; any other label ("noEnergy", ...) becomes silence on both.  The
cursor is set to the segment's (unclamped) stop. -/
def stepSeg (audio : Audio) : Audio × Audio × Nat → Segment → Audio × Audio × Nat
  | (male_audio, female_audio, current_time_ms), seg =>
    let gapped : Audio × Audio :=
      if seg.start_ms > current_time_ms then
        (male_audio ++ silent (seg.start_ms - current_time_ms),
         female_audio ++ silent (seg.start_ms - current_time_ms))
      else
        (male_audio, female_audio)
    if seg.label = "male" then
      (gapped.1 ++ audioSlice audio seg.start_ms seg.stop_ms,
       gapped.2 ++ silent (seg.stop_ms - seg.start_ms), seg.stop_ms)
    else if seg.label = "female" then
      (gapped.1 ++ silent (seg.stop_ms - seg.start_ms),
       gapped.2 ++ audioSlice audio seg.start_ms seg.stop_ms, seg.stop_ms)
    else
      (gapped.1 ++ silent (seg.stop_ms - seg.start_ms),
       gapped.2 ++ silent (seg.stop_ms - seg.start_ms), seg.stop_ms)

/-- The reconstruction core of `create_synchronized_tracks`: start from
two empty tracks and cursor 0, process every segment in order, then pad
both tracks with trailing silence when the cursor stopped short of the
recording's end.  Returns `(male_audio, female_audio)`.  Note the source
computes and prints the three durations after this point but performs no
check on them before exporting and returning. -/
def createSynchronizedTracksCore (audio : Audio) (segments : List Segment) :
    Audio × Audio :=
  let r := segments.foldl (stepSeg audio) (silent 0, silent 0, 0)
  if r.2.2 < audio.length then
    (r.1 ++ silent (audio.length - r.2.2),
     r.2.1 ++ silent (audio.length - r.2.2))
  else
    (r.1, r.2.1)

/-- The method `create_synchronized_tracks`: raises `ValueError` when
`segment_audio()` has not populated `segments_df`, otherwise loads the
recording into `self.audio`, reconstructs both tracks and returns them
(the source exports them to the two output files and returns the paths).
There is no other raise in the method. -/
def create_synchronized_tracks (st : SeparatorState) :
    Except SepError ((Audio × Audio) × SeparatorState) :=
  match st.segments_df with
  | none => .error (.valueError "Must run segment_audio() first")
  | some segs =>
      let audio := st.audio_file
      .ok (createSynchronizedTracksCore audio segs,
           ⟨st.audio_file, st.segments_df, some audio⟩)

/-- Name of the temporary clip file for one extracted segment:
`f"{speaker_label}_segment_{idx}.wav"` where `idx` is the row's index in
the full segmentation table. -/
def segmentFileName (speaker_label : String) (idx : Nat) : String :=
  speaker_label ++ "_segment_" ++ toString idx ++ ".wav"

/-- Outcome of one `extract_speaker_segments` call:
`result` is the method's return value (`None` or the output path),
`concat_inputs` the clip files listed for the ffmpeg concat demuxer (in
segment order; empty when concatenation was never attempted), and
`temp_remaining` the temporary files still on disk afterwards. -/
structure ExtractOutcome where
  result : Option String
  concat_inputs : List String
  temp_remaining : List String
deriving DecidableEq

/-- The method `extract_speaker_segments`: raises `ValueError` when
`segments_df` is unset; filters the table to the requested label and
returns `None` when no row matches; slices each matching segment with
ffmpeg (`sliceOk idx seg` tells whether that external call succeeds — a
failure is logged and the segment skipped); returns `None` when no slice
succeeded; otherwise writes the concat list file and runs the ffmpeg
concatenation (`concatOk`): on success the temporaries are deleted and
the output path returned, on failure the method returns `None` leaving
the clip files and the list file on disk. -/
def extract_speaker_segments (st : SeparatorState)
    (speaker_label output_filename : String)
    (sliceOk : Nat → Segment → Bool) (concatOk : Bool) :
    Except SepError (ExtractOutcome × SeparatorState) :=
  match st.segments_df with
  | none => .error (.valueError "Must run segment_audio() first")
  | some segs =>
      let speaker_segments := segs.enum.filter
        (fun p => p.2.label == speaker_label)
      if speaker_segments.isEmpty then
        .ok (⟨none, [], []⟩, st)
      else
        let segment_files :=
          (speaker_segments.filter (fun p => sliceOk p.1 p.2)).map
            (fun p => segmentFileName speaker_label p.1)
        if segment_files.isEmpty then
          .ok (⟨none, [], []⟩, st)
        else
          let list_file := speaker_label ++ "_segments.txt"
          if concatOk then
            .ok (⟨some output_filename, segment_files, []⟩, st)
          else
            .ok (⟨none, segment_files, segment_files ++ [list_file]⟩, st)

/-- A file handed to `create_stereo_mix`: whether the path exists and the
track's length in milliseconds. -/
structure AudioFile where
  present : Bool
  length_ms : Nat
deriving DecidableEq

/-- The method `create_stereo_mix`: returns `None` when either input file
is missing; otherwise the result is whatever the external ffmpeg `amerge`
invocation produces (`none` when `subprocess.run` raised).  The method
performs no comparison of the two input lengths. -/
def create_stereo_mix (male_file female_file : AudioFile)
    (amerge : AudioFile → AudioFile → Option Audio) : Option Audio :=
  if male_file.present && female_file.present then
    amerge male_file female_file
  else
    none

/-- `os.path.basename`: everything after the last `/`. -/
def basename (path : String) : String :=
  String.mk ((path.toList.reverse.takeWhile (fun c => c ≠ '/')).reverse)

/-- The method `create_segment_archive`, applied to the files the glob
`f'{speaker_label}_segment*.wav'` found: returns `None` (after printing a
report) when there are no files, otherwise an archive with one entry per
input file, the entry named by the file's base name. -/
def create_segment_archive (segment_files : List String)
    (archive_name : String) : Option (String × List String) :=
  if segment_files.isEmpty then
    none
  else
    some (archive_name, segment_files.map basename)

/-- Well-formedness of a segment list against a recording of `len`
milliseconds, walking with cursor `cur`: each segment starts at or after
the cursor (chronological and non-overlapping), stops at or after it
starts, stops within the recording, and the cursor moves to its stop. -/
def chronWF (len : Nat) : Nat → List Segment → Bool
  | _, [] => true
  | cur, seg :: rest =>
      decide (cur ≤ seg.start_ms) && decide (seg.start_ms ≤ seg.stop_ms) &&
      decide (seg.stop_ms ≤ len) && chronWF len seg.stop_ms rest

/-- The spec's "cursor regression": some segment starts strictly before
the stop of the segment before it. -/
def hasCursorRegression : Nat → List Segment → Bool
  | _, [] => false
  | cur, seg :: rest =>
      decide (seg.start_ms < cur) || hasCursorRegression seg.stop_ms rest

theorem audioSlice_length (audio : Audio) (a b : Nat) :
    (audioSlice audio a b).length = min (b - a) (audio.length - a) := by
  simp [audioSlice]

theorem stepSeg_spec (audio male female : Audio) (cur : Nat) (seg : Segment)
    (h1 : cur ≤ seg.start_ms) (h2 : seg.start_ms ≤ seg.stop_ms)
    (h3 : seg.stop_ms ≤ audio.length) :
    (stepSeg audio (male, female, cur) seg).1.length
        = male.length + (seg.stop_ms - cur) ∧
    (stepSeg audio (male, female, cur) seg).2.1.length
        = female.length + (seg.stop_ms - cur) ∧
    (stepSeg audio (male, female, cur) seg).2.2 = seg.stop_ms := by
  simp only [stepSeg]
  split_ifs <;>
    simp [silent, audioSlice, List.length_append, List.length_replicate,
      List.length_take, List.length_drop] <;>
    omega

theorem foldl_stepSeg_len (audio : Audio) (segs : List Segment) :
    ∀ (male female : Audio) (cur : Nat),
      male.length = cur → female.length = cur → cur ≤ audio.length →
      chronWF audio.length cur segs = true →
      ((segs.foldl (stepSeg audio) (male, female, cur)).1.length =
          (segs.foldl (stepSeg audio) (male, female, cur)).2.2 ∧
       (segs.foldl (stepSeg audio) (male, female, cur)).2.1.length =
          (segs.foldl (stepSeg audio) (male, female, cur)).2.2 ∧
       (segs.foldl (stepSeg audio) (male, female, cur)).2.2 ≤ audio.length) := by
  induction segs with
  | nil =>
      intro male female cur hm hf hc _
      simpa using ⟨hm, hf, hc⟩
  | cons seg rest ih =>
      intro male female cur hm hf hc hwf
      simp only [chronWF, Bool.and_eq_true, decide_eq_true_eq] at hwf
      obtain ⟨⟨⟨h1, h2⟩, h3⟩, hrest⟩ := hwf
      have hstep := stepSeg_spec audio male female cur seg h1 h2 h3
      rcases hst : stepSeg audio (male, female, cur) seg with ⟨m, f, c⟩
      rw [hst] at hstep
      have hml : m.length = male.length + (seg.stop_ms - cur) := hstep.1
      have hfl : f.length = female.length + (seg.stop_ms - cur) := hstep.2.1
      have hcc : c = seg.stop_ms := hstep.2.2
      simp only [List.foldl_cons, hst]
      exact ih m f c (by omega) (by omega) (by omega) (by rw [hcc]; exact hrest)

/-- Claim C1, amended: for every chronologically ordered, non-overlapping
Segment List whose segment times satisfy `start ≤ stop ≤ duration`
(`chronWF`), the two synchronized tracks produced by
`create_synchronized_tracks` each have length exactly equal to the
recording's length (in the model one sample is one millisecond, so exact
equality is within one sample).  The unamended universal claim fails on
segment lists that leave this well-formed range, see `c1_counterexample`. -/
theorem c1_duration_invariant (audio : Audio) (segs : List Segment)
    (h : chronWF audio.length 0 segs = true) :
    (createSynchronizedTracksCore audio segs).1.length = audio.length ∧
    (createSynchronizedTracksCore audio segs).2.length = audio.length := by
  have key := foldl_stepSeg_len audio segs (silent 0) (silent 0) 0
    (by simp [silent]) (by simp [silent]) (Nat.zero_le _) h
  rcases hfold : segs.foldl (stepSeg audio) (silent 0, silent 0, 0) with ⟨m, f, c⟩
  rw [hfold] at key
  have hm : m.length = c := key.1
  have hf : f.length = c := key.2.1
  have hc : c ≤ audio.length := key.2.2
  simp only [createSynchronizedTracksCore, hfold]
  split_ifs with hlt <;>
    constructor <;>
    simp [silent, List.length_append] <;>
    omega

/-- Witness for C1 at the spec's concrete scenario (scaled to model
units): duration 10 with segments (male,0,3), (female,3,5), (male,7,10). -/
theorem c1_duration_invariant_witness :
    chronWF (silent 10 : Audio).length 0
        [⟨"male", 0, 3⟩, ⟨"female", 3, 5⟩, ⟨"male", 7, 10⟩] = true ∧
    ((createSynchronizedTracksCore (silent 10)
        [⟨"male", 0, 3⟩, ⟨"female", 3, 5⟩, ⟨"male", 7, 10⟩]).1.length
          = (silent 10 : Audio).length ∧
     (createSynchronizedTracksCore (silent 10)
        [⟨"male", 0, 3⟩, ⟨"female", 3, 5⟩, ⟨"male", 7, 10⟩]).2.length
          = (silent 10 : Audio).length) :=
  ⟨by decide, c1_duration_invariant (silent 10) _ (by decide)⟩

/-- Counterexample to C1 as stated: on a recording of 10 samples and the
single segment (male, 0, 12) — whose stop lies past the recording's end —
the female track comes out 12 samples long, 2 samples longer than the
recording, which exceeds the one-sample tolerance. -/
theorem c1_counterexample :
    (createSynchronizedTracksCore (silent 10) [⟨"male", 0, 12⟩]).2.length = 12 ∧
    (silent 10 : Audio).length = 10 ∧
    (createSynchronizedTracksCore (silent 10) [⟨"male", 0, 12⟩]).2.length ≠
      (silent 10 : Audio).length := by
  decide

/-- Claim C2, amended: `create_synchronized_tracks` computes (and prints)
the three durations before returning but performs no check on them: even
when a track's length differs from the recording's, no error is raised —
the method still returns (and exports) the mismatched tracks. -/
theorem c2_no_duration_check (st : SeparatorState) (segs : List Segment)
    (h : st.segments_df = some segs)
    (hmm : (createSynchronizedTracksCore st.audio_file segs).1.length
             ≠ st.audio_file.length ∨
           (createSynchronizedTracksCore st.audio_file segs).2.length
             ≠ st.audio_file.length) :
    create_synchronized_tracks st =
      .ok (createSynchronizedTracksCore st.audio_file segs,
           ⟨st.audio_file, st.segments_df, some st.audio_file⟩) := by
  simp [create_synchronized_tracks, h]

/-- Witness for C2's amended claim: a recording of 10 samples with the
single segment (female, 0, 14) yields a male track of 14 samples, yet the
method returns the tracks. -/
theorem c2_no_duration_check_witness :
    create_synchronized_tracks ⟨silent 10, some [⟨"female", 0, 14⟩], none⟩ =
      .ok ((silent 14, silent 10),
           ⟨silent 10, some [⟨"female", 0, 14⟩], some (silent 10)⟩) :=
  c2_no_duration_check ⟨silent 10, some [⟨"female", 0, 14⟩], none⟩
    [⟨"female", 0, 14⟩] rfl (by decide)

/-- Counterexample to C2 as stated: with a 10-sample recording and the
segment (female, 0, 14) the male track's length (14) differs from the
recording's (10) by more than one sample, yet the call succeeds and
returns the mismatched tracks instead of raising an error. -/
theorem c2_counterexample :
    create_synchronized_tracks ⟨silent 10, some [⟨"male", 0, 13⟩], none⟩ =
      .ok ((silent 10, silent 13),
           ⟨silent 10, some [⟨"male", 0, 13⟩], some (silent 10)⟩) ∧
    (silent 13 : Audio).length ≠ (silent 10 : Audio).length :=
  ⟨rfl, by decide⟩

/-- Claim C3, amended: `create_synchronized_tracks` does not examine the
cursor for regression: a segment list containing overlapping or
non-chronological segments (`hasCursorRegression`) is processed without
any error — the tracks are computed by the same fold and returned. -/
theorem c3_no_overlap_detection (st : SeparatorState) (segs : List Segment)
    (h : st.segments_df = some segs)
    (hreg : hasCursorRegression 0 segs = true) :
    create_synchronized_tracks st =
      .ok (createSynchronizedTracksCore st.audio_file segs,
           ⟨st.audio_file, st.segments_df, some st.audio_file⟩) := by
  simp [create_synchronized_tracks, h]

/-- Witness for C3's amended claim at the spec's overlap scenario
(male,0,5) and (female,3,8) over a 10-sample recording: the call
succeeds, emitting two 12-sample tracks. -/
theorem c3_no_overlap_detection_witness :
    create_synchronized_tracks
        ⟨silent 10, some [⟨"male", 0, 5⟩, ⟨"female", 3, 8⟩], none⟩ =
      .ok ((silent 12, silent 12),
           ⟨silent 10, some [⟨"male", 0, 5⟩, ⟨"female", 3, 8⟩],
            some (silent 10)⟩) :=
  c3_no_overlap_detection
    ⟨silent 10, some [⟨"male", 0, 5⟩, ⟨"female", 3, 8⟩], none⟩
    [⟨"male", 0, 5⟩, ⟨"female", 3, 8⟩] rfl (by decide)

/-- Counterexample to C3 as stated: on the spec's overlapping scenario
(male,0,5), (female,3,8) over a 10-sample recording, reconstruction does
not abort — it returns both tracks (of length 12), so no
StructuralViolation is raised before tracks are emitted. -/
theorem c3_counterexample :
    hasCursorRegression 0 [⟨"male", 0, 5⟩, ⟨"female", 3, 8⟩] = true ∧
    create_synchronized_tracks
        ⟨silent 10, some [⟨"male", 0, 5⟩, ⟨"female", 3, 8⟩], some (silent 10)⟩ =
      .ok ((silent 12, silent 12),
           ⟨silent 10, some [⟨"male", 0, 5⟩, ⟨"female", 3, 8⟩],
            some (silent 10)⟩) :=
  ⟨by decide, rfl⟩

/-- Claim C4 (code bug): the source never clamps `stop_ms` to the
recording's length.  At the failing input — a 10-sample recording with
the single segment (male, 0, 12) — the male track advances only by the
implicitly clamped audio slice (10 samples, because Python slicing clamps)
while the female track advances by the unclamped silence duration
(12 samples), so the two tracks end with different lengths, contradicting
both the claim's clamped-advance behaviour and the method's own docstring
("Ensuring both tracks have the same total duration"). -/
theorem c4_no_clamp :
    createSynchronizedTracksCore (silent 10) [⟨"male", 0, 12⟩] =
      (silent 10, silent 12) ∧
    (audioSlice (silent 10) 0 12).length = 10 ∧
    (silent (12 - 0) : Audio).length = 12 := by
  decide

/-- Claim C5, amended: `create_stereo_mix` performs no comparison of the
two input tracks' lengths and raises no DurationMismatchError: when both
files exist — even with different lengths — the result is exactly
whatever the external ffmpeg `amerge` call yields. -/
theorem c5_no_length_check (male_file female_file : AudioFile)
    (amerge : AudioFile → AudioFile → Option Audio)
    (h1 : male_file.present = true) (h2 : female_file.present = true)
    (hne : male_file.length_ms ≠ female_file.length_ms) :
    create_stereo_mix male_file female_file amerge =
      amerge male_file female_file := by
  simp [create_stereo_mix, h1, h2]

/-- Witness for C5's amended claim: files of 10000 ms and 9999 ms, both
present, with an amerge collaborator that merges to the shorter length. -/
theorem c5_no_length_check_witness :
    create_stereo_mix ⟨true, 10000⟩ ⟨true, 9999⟩
        (fun a b => some (silent (min a.length_ms b.length_ms))) =
      some (silent 9999) :=
  c5_no_length_check ⟨true, 10000⟩ ⟨true, 9999⟩
    (fun a b => some (silent (min a.length_ms b.length_ms)))
    rfl rfl (by decide)

/-- Counterexample to C5 as stated (the spec's 10.0 s vs 9.999 s
scenario): with both files present and lengths 10000 ms and 9999 ms, and
ffmpeg's amerge behaviour of merging unequal inputs without failing, the
call produces a stereo output instead of failing with a
DurationMismatchError. -/
theorem c5_counterexample :
    create_stereo_mix ⟨true, 10000⟩ ⟨true, 9999⟩
        (fun _ _ => some (silent 9999)) = some (silent 9999) ∧
    (10000 : Nat) ≠ 9999 :=
  ⟨rfl, by decide⟩

/-- Claim C6: for an empty Segment List, both synchronized tracks are
pure (all-zero) silence of exactly the recording's full duration, and the
Segment Extractor returns absent (`None`) for every requested label. -/
theorem c6_empty_input (audio : Audio) (aud0 : Option Audio)
    (speaker_label output_filename : String)
    (sliceOk : Nat → Segment → Bool) (concatOk : Bool) :
    createSynchronizedTracksCore audio [] =
      (silent audio.length, silent audio.length) ∧
    extract_speaker_segments ⟨audio, some [], aud0⟩ speaker_label
        output_filename sliceOk concatOk =
      .ok (⟨none, [], []⟩, ⟨audio, some [], aud0⟩) := by
  constructor
  · simp only [createSynchronizedTracksCore, List.foldl_nil]
    split_ifs with hlt
    · simp [silent]
    · have h0 : audio.length = 0 := by omega
      simp [h0, silent]
  · rfl

/-- Claim C7: in `extract_speaker_segments` each slice is attempted
independently: a failed slice is skipped without aborting, the files
passed to concatenation are exactly those of the successfully sliced
matching segments in chronological order, and only when zero slices
succeed does the method return absent (`None`). -/
theorem c7_partial_failure (st : SeparatorState) (segs : List Segment)
    (speaker_label output_filename : String) (sliceOk : Nat → Segment → Bool)
    (h : st.segments_df = some segs) :
    (((segs.enum.filter (fun p => p.2.label == speaker_label)).filter
        (fun p => sliceOk p.1 p.2)) ≠ [] →
      extract_speaker_segments st speaker_label output_filename sliceOk true =
        .ok (⟨some output_filename,
              ((segs.enum.filter (fun p => p.2.label == speaker_label)).filter
                  (fun p => sliceOk p.1 p.2)).map
                (fun p => segmentFileName speaker_label p.1), []⟩, st)) ∧
    ((segs.enum.filter (fun p => p.2.label == speaker_label)) ≠ [] →
      ((segs.enum.filter (fun p => p.2.label == speaker_label)).filter
          (fun p => sliceOk p.1 p.2)) = [] →
      extract_speaker_segments st speaker_label output_filename sliceOk true =
        .ok (⟨none, [], []⟩, st)) := by
  constructor
  · intro hsucc
    have hsp : (segs.enum.filter (fun p => p.2.label == speaker_label)).isEmpty
        = false := by
      cases hl : segs.enum.filter (fun p => p.2.label == speaker_label) with
      | nil => exact absurd (by rw [hl]; rfl) hsucc
      | cons a t => rfl
    have hfile : (((segs.enum.filter (fun p => p.2.label == speaker_label)).filter
        (fun p => sliceOk p.1 p.2)).map
          (fun p => segmentFileName speaker_label p.1)).isEmpty = false := by
      cases hl : (segs.enum.filter (fun p => p.2.label == speaker_label)).filter
          (fun p => sliceOk p.1 p.2) with
      | nil => exact absurd hl hsucc
      | cons a t => rfl
    simp only [extract_speaker_segments, h, hsp, hfile]
    simp
  · intro hsp hsucc
    have hsp' : (segs.enum.filter (fun p => p.2.label == speaker_label)).isEmpty
        = false := by
      cases hl : segs.enum.filter (fun p => p.2.label == speaker_label) with
      | nil => exact absurd hl hsp
      | cons a t => rfl
    have hfile : (((segs.enum.filter (fun p => p.2.label == speaker_label)).filter
        (fun p => sliceOk p.1 p.2)).map
          (fun p => segmentFileName speaker_label p.1)).isEmpty = true := by
      simp [hsucc]
    simp only [extract_speaker_segments, h, hsp', hfile]
    simp

/-- Witness for C7: three segments (male,0,3), (female,3,5), (male,7,10);
the slice of the first male segment (index 0) fails while index 2
succeeds, so the track is concatenated from `male_segment_2.wav` alone;
with every slice failing the method returns `None`. -/
theorem c7_partial_failure_witness :
    extract_speaker_segments
        ⟨silent 10, some [⟨"male", 0, 3⟩, ⟨"female", 3, 5⟩, ⟨"male", 7, 10⟩], none⟩
        "male" "male_voice_concatenated.wav" (fun i _ => decide (i ≠ 0)) true =
      .ok (⟨some "male_voice_concatenated.wav", ["male_segment_2.wav"], []⟩,
           ⟨silent 10, some [⟨"male", 0, 3⟩, ⟨"female", 3, 5⟩, ⟨"male", 7, 10⟩],
            none⟩) ∧
    extract_speaker_segments
        ⟨silent 10, some [⟨"male", 0, 3⟩, ⟨"female", 3, 5⟩, ⟨"male", 7, 10⟩], none⟩
        "male" "male_voice_concatenated.wav" (fun _ _ => false) true =
      .ok (⟨none, [], []⟩,
           ⟨silent 10, some [⟨"male", 0, 3⟩, ⟨"female", 3, 5⟩, ⟨"male", 7, 10⟩],
            none⟩) :=
  ⟨(c7_partial_failure
      ⟨silent 10, some [⟨"male", 0, 3⟩, ⟨"female", 3, 5⟩, ⟨"male", 7, 10⟩], none⟩
      [⟨"male", 0, 3⟩, ⟨"female", 3, 5⟩, ⟨"male", 7, 10⟩]
      "male" "male_voice_concatenated.wav" (fun i _ => decide (i ≠ 0))
      rfl).1 (by decide),
   (c7_partial_failure
      ⟨silent 10, some [⟨"male", 0, 3⟩, ⟨"female", 3, 5⟩, ⟨"male", 7, 10⟩], none⟩
      [⟨"male", 0, 3⟩, ⟨"female", 3, 5⟩, ⟨"male", 7, 10⟩]
      "male" "male_voice_concatenated.wav" (fun _ _ => false)
      rfl).2 (by decide) (by decide)⟩

/-- Claim C8: `create_segment_archive` yields no archive (the reported
empty-archive outcome, returning `None`) when given zero input files, and
otherwise produces an archive with exactly one entry per input file, each
entry named by the input file's base name. -/
theorem c8_archive_builder (segment_files : List String) (archive_name : String) :
    (segment_files = [] →
      create_segment_archive segment_files archive_name = none) ∧
    (segment_files ≠ [] →
      create_segment_archive segment_files archive_name =
        some (archive_name, segment_files.map basename)) := by
  constructor
  · intro h
    simp [create_segment_archive, h]
  · intro h
    simp [create_segment_archive, List.isEmpty_eq_true, h]

/-- Witness for C8: zero files produce no archive; two clip files produce
an archive of exactly their base names. -/
theorem c8_archive_builder_witness :
    create_segment_archive [] "male_segments.zip" = none ∧
    create_segment_archive ["male_segment_0.wav", "male_segment_4.wav"]
        "male_segments.zip" =
      some ("male_segments.zip", ["male_segment_0.wav", "male_segment_4.wav"]) :=
  ⟨(c8_archive_builder [] "male_segments.zip").1 rfl,
   (c8_archive_builder ["male_segment_0.wav", "male_segment_4.wav"]
      "male_segments.zip").2 (by decide)⟩

/-- Claim C9: calling `extract_speaker_segments` or
`create_synchronized_tracks` while `segments_df` is still unset raises
`ValueError("Must run segment_audio() first")`; the raise happens before
anything else, so (as the error result carries no successor state) the
instance state is untouched. -/
theorem c9_unset_segments_guard (st : SeparatorState)
    (speaker_label output_filename : String)
    (sliceOk : Nat → Segment → Bool) (concatOk : Bool)
    (h : st.segments_df = none) :
    extract_speaker_segments st speaker_label output_filename sliceOk concatOk =
      .error (.valueError "Must run segment_audio() first") ∧
    create_synchronized_tracks st =
      .error (.valueError "Must run segment_audio() first") := by
  constructor <;>
    simp [extract_speaker_segments, create_synchronized_tracks, h]

/-- Witness for C9 on a fresh instance (no segmentation run yet). -/
theorem c9_unset_segments_guard_witness :
    extract_speaker_segments ⟨silent 10, none, none⟩ "male"
        "male_voice_concatenated.wav" (fun _ _ => true) true =
      .error (.valueError "Must run segment_audio() first") ∧
    create_synchronized_tracks ⟨silent 10, none, none⟩ =
      .error (.valueError "Must run segment_audio() first") :=
  c9_unset_segments_guard ⟨silent 10, none, none⟩ "male"
    "male_voice_concatenated.wav" (fun _ _ => true) true rfl

/-- Claim C10: the temporary clip files and the concat list file are
deleted only after the concatenation succeeds: when the ffmpeg
concatenation fails the method returns `None` and every successfully
produced clip file plus the list file remains on disk; when it succeeds
no temporary file remains. -/
theorem c10_temp_file_cleanup (st : SeparatorState) (segs : List Segment)
    (speaker_label output_filename : String) (sliceOk : Nat → Segment → Bool)
    (h : st.segments_df = some segs)
    (hsucc : ((segs.enum.filter (fun p => p.2.label == speaker_label)).filter
        (fun p => sliceOk p.1 p.2)) ≠ []) :
    extract_speaker_segments st speaker_label output_filename sliceOk false =
      .ok (⟨none,
            ((segs.enum.filter (fun p => p.2.label == speaker_label)).filter
                (fun p => sliceOk p.1 p.2)).map
              (fun p => segmentFileName speaker_label p.1),
            (((segs.enum.filter (fun p => p.2.label == speaker_label)).filter
                (fun p => sliceOk p.1 p.2)).map
              (fun p => segmentFileName speaker_label p.1)) ++
              [speaker_label ++ "_segments.txt"]⟩, st) ∧
    (extract_speaker_segments st speaker_label output_filename
        sliceOk true).map (fun r => r.1.temp_remaining) = .ok [] := by
  have hsp : (segs.enum.filter (fun p => p.2.label == speaker_label)).isEmpty
      = false := by
    cases hl : segs.enum.filter (fun p => p.2.label == speaker_label) with
    | nil => exact absurd (by rw [hl]; rfl) hsucc
    | cons a t => rfl
  have hfile : (((segs.enum.filter (fun p => p.2.label == speaker_label)).filter
      (fun p => sliceOk p.1 p.2)).map
        (fun p => segmentFileName speaker_label p.1)).isEmpty = false := by
    cases hl : (segs.enum.filter (fun p => p.2.label == speaker_label)).filter
        (fun p => sliceOk p.1 p.2) with
    | nil => exact absurd hl hsucc
    | cons a t => rfl
  constructor
  · simp only [extract_speaker_segments, h, hsp, hfile]
    simp
  · simp only [extract_speaker_segments, h, hsp, hfile]
    simp [Except.map]

/-- Witness for C10: both male segments slice successfully; with the
concatenation failing the two clip files and the list file stay on disk
and the method returns `None`; with it succeeding nothing remains. -/
theorem c10_temp_file_cleanup_witness :
    extract_speaker_segments
        ⟨silent 10, some [⟨"male", 0, 3⟩, ⟨"female", 3, 5⟩, ⟨"male", 7, 10⟩], none⟩
        "male" "male_voice_concatenated.wav" (fun _ _ => true) false =
      .ok (⟨none, ["male_segment_0.wav", "male_segment_2.wav"],
            ["male_segment_0.wav", "male_segment_2.wav", "male_segments.txt"]⟩,
           ⟨silent 10, some [⟨"male", 0, 3⟩, ⟨"female", 3, 5⟩, ⟨"male", 7, 10⟩],
            none⟩) ∧
    (extract_speaker_segments
        ⟨silent 10, some [⟨"male", 0, 3⟩, ⟨"female", 3, 5⟩, ⟨"male", 7, 10⟩], none⟩
        "male" "male_voice_concatenated.wav" (fun _ _ => true) true).map
      (fun r => r.1.temp_remaining) = .ok [] :=
  c10_temp_file_cleanup
    ⟨silent 10, some [⟨"male", 0, 3⟩, ⟨"female", 3, 5⟩, ⟨"male", 7, 10⟩], none⟩
    [⟨"male", 0, 3⟩, ⟨"female", 3, 5⟩, ⟨"male", 7, 10⟩]
    "male" "male_voice_concatenated.wav" (fun _ _ => true) rfl (by decide)
